import Mathlib

set_option maxRecDepth 100000

/-!
# Verification of the Image2TextArt Electron front-end

Shallow embedding of the conversion-orchestration code of the
Image2TextArt repository (`electron-gui/main.js`,
`electron-gui/src/js/app.js`, `electron-gui/src/js/settings.js`) and
proofs about it.

Strings of the JavaScript program are modelled as Lean `String`s (or
`List Char` where character-level scanning is needed); JavaScript `Map`
objects are modelled as insertion-ordered association lists; the
side-effecting IPC handlers are modelled as explicit state-passing
functions over an `EngineState`.  External collaborators (the file
system, the spawned Python subprocess) are modelled as an `Env` record
supplying their observable behaviour.
-/

/-- The renderer's settings record, from the `AsciiArtGenerator`
constructor in `app.js` (fields listed in JavaScript property order,
which is the order `JSON.stringify` serializes them in).  JavaScript
floating-point fields (`aspectRatioCorrection`, `blur`, `sharpen`,
`brightness`, `saturation`, `contrast`, `detailLevel`, `gamma`) are
observed by the code under verification only through `toString` and
equality, so they are represented by their decimal rendering. -/
structure Settings where
  outputWidth : Nat
  colorMode : String
  dithering : Bool
  edgeDetect : Bool
  preset : String
  enhanceContrast : Bool
  aspectRatioCorrection : String
  invert : Bool
  edgeThreshold : Nat
  blur : String
  sharpen : String
  brightness : String
  saturation : String
  contrast : String
  detailLevel : String
  gamma : String
  customChars : String
  fontFamily : String
  fontSize : Nat
  autoFit : Bool
  bgColor : String
  textColor : String
deriving DecidableEq, Repr

/-- The default settings of the `AsciiArtGenerator` constructor in `app.js`. -/
def defaultSettings : Settings where
  outputWidth := 100
  colorMode := "ansi"
  dithering := false
  edgeDetect := false
  preset := "classic"
  enhanceContrast := true
  aspectRatioCorrection := "0.55"
  invert := false
  edgeThreshold := 75
  blur := "0"
  sharpen := "0"
  brightness := "1"
  saturation := "1"
  contrast := "1"
  detailLevel := "1"
  gamma := "1"
  customChars := ""
  fontFamily := "monospace"
  fontSize := 14
  autoFit := true
  bgColor := "#000000"
  textColor := "#ffffff"

/-- JSON rendering of a boolean, as `JSON.stringify` produces it. -/
def jsonBool (b : Bool) : String := if b then "true" else "false"

/-- JSON rendering of a string field.  The setting strings occurring in
the program (mode names, preset names, colors, font names) contain no
characters needing JSON escaping, so plain quoting is faithful here. -/
def jsonStr (s : String) : String := "\"" ++ s ++ "\""

/-- `JSON.stringify(settings)`: serializes the settings object field by
field in property order (numbers unquoted, strings quoted). -/
def stringifySettings (s : Settings) : String :=
  "\x7b\"outputWidth\":" ++ toString s.outputWidth ++
  ",\"colorMode\":" ++ jsonStr s.colorMode ++
  ",\"dithering\":" ++ jsonBool s.dithering ++
  ",\"edgeDetect\":" ++ jsonBool s.edgeDetect ++
  ",\"preset\":" ++ jsonStr s.preset ++
  ",\"enhanceContrast\":" ++ jsonBool s.enhanceContrast ++
  ",\"aspectRatioCorrection\":" ++ s.aspectRatioCorrection ++
  ",\"invert\":" ++ jsonBool s.invert ++
  ",\"edgeThreshold\":" ++ toString s.edgeThreshold ++
  ",\"blur\":" ++ s.blur ++
  ",\"sharpen\":" ++ s.sharpen ++
  ",\"brightness\":" ++ s.brightness ++
  ",\"saturation\":" ++ s.saturation ++
  ",\"contrast\":" ++ s.contrast ++
  ",\"detailLevel\":" ++ s.detailLevel ++
  ",\"gamma\":" ++ s.gamma ++
  ",\"customChars\":" ++ jsonStr s.customChars ++
  ",\"fontFamily\":" ++ jsonStr s.fontFamily ++
  ",\"fontSize\":" ++ toString s.fontSize ++
  ",\"autoFit\":" ++ jsonBool s.autoFit ++
  ",\"bgColor\":" ++ jsonStr s.bgColor ++
  ",\"textColor\":" ++ jsonStr s.textColor ++ "\x7d"

/-- `getCacheKey` from `main.js`: the cache key is the image *path*
concatenated with the JSON-serialized settings. -/
def getCacheKey (imagePath : String) (settings : Settings) : String :=
  imagePath ++ ":" ++ stringifySettings settings

/-- The process-wide result cache (`processCache`, a JavaScript `Map`),
modelled as an insertion-ordered association list. -/
abbrev Cache := List (String × String)

/-- The keys of a cache, in insertion order. -/
def keysOf (c : Cache) : List String := c.map Prod.fst

/-- `Map.prototype.get`/`has`: first (unique) binding of a key. -/
def cacheLookup (c : Cache) (k : String) : Option String :=
  match c with
  | [] => none
  | (k', v) :: rest => if k' = k then some v else cacheLookup rest k

/-- `Map.prototype.set`: update an existing key in place (keeping its
insertion position) or append a new binding at the end. -/
def mapSet (c : Cache) (k v : String) : Cache :=
  match c with
  | [] => [(k, v)]
  | (k', v') :: rest =>
      if k' = k then (k, v) :: rest else (k', v') :: mapSet rest k v

/-- The cache-insertion step of the `process-image` handler
(`main.js` lines 583-593): `processCache.set(cacheKey, result)` followed
by the size-limit pass that deletes the oldest `size - 10` keys when the
size exceeds 10. -/
def cacheInsert (c : Cache) (k v : String) : Cache :=
  let c' := mapSet c k v
  if 10 < c'.length then c'.drop (c'.length - 10) else c'

/-- `path.join(__dirname, 'python_bridge.py')` of `getPythonPath`. -/
def bridgeScript : String := "python_bridge.py"

/-- The bridge-script argument list built by the `process-image` handler
(`main.js` lines 498-528).  Note that `settings.customChars` is never
consulted here. -/
def buildArgs (imagePath : String) (s : Settings) (outputFile : String)
    (optimizeMemory : Bool) : List String :=
  let args := [bridgeScript, "generate", imagePath,
    "--output", outputFile,
    "--width", toString s.outputWidth,
    "--color", s.colorMode,
    "--preset", s.preset,
    "--edge-threshold", toString s.edgeThreshold,
    "--aspect-ratio", s.aspectRatioCorrection,
    "--blur", s.blur,
    "--sharpen", s.sharpen,
    "--brightness", s.brightness,
    "--saturation", s.saturation,
    "--contrast", s.contrast,
    "--detail-level", s.detailLevel,
    "--gamma", s.gamma]
  let args := if optimizeMemory then
    args ++ ["--optimize-for", "memory", "--max-image-size", "2000"] else args
  let args := if s.dithering then args ++ ["--dither"] else args
  let args := if s.edgeDetect then args ++ ["--edges"] else args
  let args := if !s.enhanceContrast then args ++ ["--no-enhance"] else args
  if s.invert then args ++ ["--invert"] else args

/-- Observable behaviour of the spawned Python subprocess: either the
spawn itself fails (`'error'` event), or the process exits with a code
and accumulated stderr, `readOutput` being what `fs.readFileSync` on the
temporary output file would yield afterwards. -/
inductive SpawnOutcome where
  | spawnError (msg : String)
  | exited (code : Nat) (stderr : String) (readOutput : Except String String)
deriving Repr

/-- External collaborators of the `process-image` handler: existence of
the bridge script and of files, the `optimizeMemory` store flag, and the
subprocess behaviour as a function of its argument list. -/
structure Env where
  bridgeExists : Bool
  fileExists : String → Bool
  optimizeMemory : Bool
  run : List String → SpawnOutcome

/-- Mutable main-process state touched by the handlers: the result cache
and the `lastSettings` entry of the settings store. -/
structure EngineState where
  cache : Cache
  lastSettings : Option Settings
deriving DecidableEq, Repr

/-- Outcome of one `process-image` call: the value the promise settles
with, the state after the call, and whether a subprocess was spawned. -/
structure ProcessResult where
  result : Except String String
  state : EngineState
  spawned : Bool
deriving Repr

/-- The `process-image` IPC handler (`main.js` lines 469-613): cache
lookup, existence checks, `store.set('lastSettings', …)`, subprocess
run, output-file read, cache insertion with eviction. -/
def processImage (env : Env) (st : EngineState) (imagePath : String)
    (s : Settings) (outputFile : String) : ProcessResult :=
  let cacheKey := getCacheKey imagePath s
  match cacheLookup st.cache cacheKey with
  | some cached => ⟨Except.ok cached, st, false⟩
  | none =>
    if env.bridgeExists = false then
      ⟨Except.error ("Bridge script not found: " ++ bridgeScript), st, false⟩
    else if env.fileExists imagePath = false then
      ⟨Except.error ("Image file not found: " ++ imagePath), st, false⟩
    else
      let args := buildArgs imagePath s outputFile env.optimizeMemory
      let st1 : EngineState := { st with lastSettings := some s }
      match env.run args with
      | SpawnOutcome.spawnError msg =>
          ⟨Except.error ("Failed to start Python process: " ++ msg), st1, true⟩
      | SpawnOutcome.exited code stderr readOutput =>
          if code ≠ 0 then
            ⟨Except.error ("Python error: " ++
              (if stderr = "" then "Unknown error" else stderr)), st1, true⟩
          else
            match readOutput with
            | Except.error msg =>
                ⟨Except.error ("Failed to read output file: " ++ msg), st1, true⟩
            | Except.ok result =>
                ⟨Except.ok result,
                 { st1 with cache := cacheInsert st1.cache cacheKey result }, true⟩

/-- Observable behaviour of the subprocess spawned by the
`get-character-presets` handler: spawn failure or exit with a code and
accumulated stdout. -/
inductive PresetsRun where
  | spawnError (msg : String)
  | exited (code : Nat) (stdout : String)
deriving DecidableEq, Repr

/-- The `get-character-presets` IPC handler (`main.js` lines 699-760).
`jsonParse` models `JSON.parse` applied to the trimmed stdout (`none`
models a parse exception).  The handler resolves with `[]` on every
failure path (the source comments say "Return empty array instead of
rejecting to avoid crashing"); it never rejects. -/
def getCharacterPresets (bridgeExists : Bool) (run : PresetsRun)
    (jsonParse : String → Option (List String)) : Except String (List String) :=
  if bridgeExists = false then Except.ok []
  else
    match run with
    | PresetsRun.spawnError _ => Except.ok []
    | PresetsRun.exited code stdout =>
      if code ≠ 0 then Except.ok []
      else
        match jsonParse stdout.trim with
        | some r => Except.ok r
        | none => Except.ok []

/-- A quick-preset object (`settings.js` `PRESETS` entries, and the
suggested-settings objects of the `suggest-optimal-settings` handler):
a JavaScript object carrying a subset of the settings keys, modelled
with one optional field per settings key.  Spreading the object over a
settings record overrides exactly the present fields. -/
structure PresetPatch where
  outputWidth : Option Nat := none
  colorMode : Option String := none
  dithering : Option Bool := none
  edgeDetect : Option Bool := none
  preset : Option String := none
  enhanceContrast : Option Bool := none
  aspectRatioCorrection : Option String := none
  invert : Option Bool := none
  edgeThreshold : Option Nat := none
  blur : Option String := none
  sharpen : Option String := none
  brightness : Option String := none
  saturation : Option String := none
  contrast : Option String := none
  detailLevel : Option String := none
  gamma : Option String := none
  customChars : Option String := none
  fontFamily : Option String := none
  fontSize : Option Nat := none
  autoFit : Option Bool := none
  bgColor : Option String := none
  textColor : Option String := none
deriving DecidableEq, Repr

/-- Object spread `{...s, ...p}`: fields present in the patch override
the corresponding settings fields. -/
def applyPatch (s : Settings) (p : PresetPatch) : Settings where
  outputWidth := p.outputWidth.getD s.outputWidth
  colorMode := p.colorMode.getD s.colorMode
  dithering := p.dithering.getD s.dithering
  edgeDetect := p.edgeDetect.getD s.edgeDetect
  preset := p.preset.getD s.preset
  enhanceContrast := p.enhanceContrast.getD s.enhanceContrast
  aspectRatioCorrection := p.aspectRatioCorrection.getD s.aspectRatioCorrection
  invert := p.invert.getD s.invert
  edgeThreshold := p.edgeThreshold.getD s.edgeThreshold
  blur := p.blur.getD s.blur
  sharpen := p.sharpen.getD s.sharpen
  brightness := p.brightness.getD s.brightness
  saturation := p.saturation.getD s.saturation
  contrast := p.contrast.getD s.contrast
  detailLevel := p.detailLevel.getD s.detailLevel
  gamma := p.gamma.getD s.gamma
  customChars := p.customChars.getD s.customChars
  fontFamily := p.fontFamily.getD s.fontFamily
  fontSize := p.fontSize.getD s.fontSize
  autoFit := p.autoFit.getD s.autoFit
  bgColor := p.bgColor.getD s.bgColor
  textColor := p.textColor.getD s.textColor

/-- `applyPreset` from `settings.js` (lines 192-212): captures the five
display settings of the current state, spreads the preset over the
settings, then spreads the captured display settings back on top:
`window.app.settings = {...settings, ...preset, ...displaySettings}`. -/
def applyPreset (s : Settings) (p : PresetPatch) : Settings :=
  let merged := applyPatch s p
  { merged with
    fontFamily := s.fontFamily
    fontSize := s.fontSize
    autoFit := s.autoFit
    bgColor := s.bgColor
    textColor := s.textColor }

/-- The `photo` entry of `PRESETS` in `settings.js`. -/
def photoPreset : PresetPatch where
  outputWidth := some 120
  colorMode := some "ansi"
  dithering := some true
  edgeDetect := some false
  preset := some "photo"
  enhanceContrast := some true
  aspectRatioCorrection := some "0.55"
  invert := some false
  edgeThreshold := some 75
  blur := some "0"
  sharpen := some "2.5"
  brightness := some "1.15"
  saturation := some "1.2"
  contrast := some "1.3"
  detailLevel := some "1.2"
  gamma := some "1"

/-- Observable behaviour of the subprocess spawned by the
`suggest-optimal-settings` handler. -/
inductive SuggestRun where
  | spawnError (msg : String)
  | exited (code : Nat) (stdout : String) (stderr : String)
deriving DecidableEq, Repr

/-- The value a `suggest-optimal-settings` call resolves with:
`{success: true, settings}` or `{success: false, error}`. -/
inductive SuggestResult where
  | success (settings : PresetPatch)
  | failure (error : String)
deriving DecidableEq, Repr

/-- The `suggest-optimal-settings` IPC handler (`main.js` lines
795-874).  `jsonParse` models `JSON.parse` on the trimmed stdout;
`regexFallback` models the regex extraction of settings from
`stdout + stderr` (`none` when no setting key matched, in which case the
handler resolves with the `'Could not parse settings'` failure).  The
handler threads the engine state through untouched: it reads no cache
entry and writes neither the cache nor `lastSettings`. -/
def suggestOptimalSettings (st : EngineState) (fileExists : Bool)
    (run : SuggestRun) (jsonParse : String → Option PresetPatch)
    (regexFallback : String → Option PresetPatch) : SuggestResult × EngineState :=
  (if fileExists = false then SuggestResult.failure "File not found"
   else
    match run with
    | SuggestRun.spawnError msg => SuggestResult.failure msg
    | SuggestRun.exited code stdout stderr =>
      if code ≠ 0 then
        SuggestResult.failure (if stderr = "" then "Unknown error" else stderr)
      else
        match jsonParse stdout.trim with
        | some s => SuggestResult.success s
        | none =>
          match regexFallback (stdout ++ stderr) with
          | some s => SuggestResult.success s
          | none => SuggestResult.failure "Could not parse settings",
   st)

/-- The characters of the `<br>` replacement text. -/
def brTag : List Char := ['<', 'b', 'r', '>']

/-- The characters of an opening-span marker `<span` (the pattern of the
`/<span/g` count in `processAnsiOutput`). -/
def openSpan : List Char := ['<', 's', 'p', 'a', 'n']

/-- The characters of a closing-span marker `</span>` (the pattern of
the `/<\/span>/g` count, and the text appended for missing closers). -/
def closeSpan : List Char := ['<', '/', 's', 'p', 'a', 'n', '>']

/-- `.replace(/\r?\n/g, '<br>')`: every newline, with an optional
preceding carriage return, becomes `<br>`. -/
def replaceNewlines : List Char → List Char
  | [] => []
  | '\r' :: '\n' :: rest => brTag ++ replaceNewlines rest
  | '\n' :: rest => brTag ++ replaceNewlines rest
  | c :: rest => c :: replaceNewlines rest

/-- A character matched by the `[0-9;]` class of the ANSI regex. -/
def isParamChar (c : Char) : Bool := c.isDigit || c = ';'

/-- Scans the `[0-9;]*m` part of the ANSI regex `\u001b\[([0-9;]*)m`:
returns the captured parameter characters and the remainder after the
final `m`, or `none` when the regex does not match here (the greedy
`[0-9;]*` run is not followed by `m`). -/
def paramsSplit : List Char → Option (List Char × List Char)
  | [] => none
  | c :: rest =>
    if c = 'm' then some ([], rest)
    else if isParamChar c then
      match paramsSplit rest with
      | some (ps, tail) => some (c :: ps, tail)
      | none => none
    else none

theorem paramsSplit_length : ∀ l ps tail, paramsSplit l = some (ps, tail) →
    tail.length < l.length := by
  intro l
  induction l with
  | nil => intro ps tail h; simp [paramsSplit] at h
  | cons c rest ih =>
    intro ps tail h
    simp only [paramsSplit] at h
    by_cases hm : c = 'm'
    · simp [hm] at h
      simp [← h.2]
    · simp only [hm, if_false] at h
      by_cases hp : isParamChar c = true
      · simp only [hp, if_true] at h
        match hrec : paramsSplit rest with
        | some (ps', tail') =>
          rw [hrec] at h
          simp at h
          have h2 := ih ps' tail' hrec
          rw [← h.2]
          simp only [List.length_cons]
          omega
        | none => rw [hrec] at h; simp at h
      · simp [hp] at h

/-- `p1.split(';')` on the captured parameter characters: splits into
semicolon-separated segments (the empty capture yields one empty
segment, as in JavaScript). -/
def splitSemi : List Char → List (List Char)
  | [] => [[]]
  | ';' :: rest => [] :: splitSemi rest
  | c :: rest =>
    match splitSemi rest with
    | g :: gs => (c :: g) :: gs
    | [] => [[c]]

/-- `Number(segment)` on a (possibly empty) all-digit segment: decimal
value, with `Number('') = 0` as in JavaScript. -/
def toNumber (digits : List Char) : Nat :=
  digits.foldl (fun n c => n * 10 + (c.toNat - '0'.toNat)) 0

/-- `params[i] || d`: a missing index (`undefined`) and the value `0`
are both falsy in JavaScript and yield the default. -/
def jsOr (params : List Nat) (i d : Nat) : Nat :=
  let v := params.getD i 0
  if v = 0 then d else v

/-- The replacement-callback of `processAnsiOutput` for one matched ANSI
escape `\u001b\[([0-9;]*)m` (`app.js` lines 614-637): parameter `0`
yields `</span>`, `38;5;n` a 256-color span, `38;2;r;g;b` an RGB span,
anything else a bare `<span>`. -/
def spanFor (ps : List Char) : List Char :=
  let params := (splitSemi ps).map toNumber
  if params.get? 0 = some 0 then closeSpan
  else if params.get? 0 = some 38 then
    if params.get? 1 = some 5 then
      "<span style=\"color: var(--ansi-".toList ++
        (toString (jsOr params 2 7)).toList ++ ");\">".toList
    else if params.get? 1 = some 2 then
      "<span style=\"color: rgb(".toList ++
        (toString (jsOr params 2 255)).toList ++ ", ".toList ++
        (toString (jsOr params 3 255)).toList ++ ", ".toList ++
        (toString (jsOr params 4 255)).toList ++ ");\">".toList
    else "<span>".toList
  else "<span>".toList

/-- `.replace(/\u001b\[([0-9;]*)m/g, …)`: scans the text, replacing each
ANSI color escape by its span markup via `spanFor`; an escape character
not starting a full match is copied through. -/
def replaceAnsi : List Char → List Char
  | [] => []
  | '\x1b' :: '[' :: rest =>
    match h : paramsSplit rest with
    | some (ps, tail) => spanFor ps ++ replaceAnsi tail
    | none => '\x1b' :: replaceAnsi ('[' :: rest)
  | c :: rest => c :: replaceAnsi rest
termination_by l => l.length
decreasing_by
  · simp only [List.length_cons]
    have := paramsSplit_length rest ps tail h
    omega
  · simp
  · simp

/-- The number of positions of `l` at which the pattern `pat` occurs
(for the two patterns counted by `processAnsiOutput`, which cannot
overlap themselves, this equals the JavaScript global-regex match
count). -/
def countPos (pat : List Char) : List Char → Nat
  | [] => 0
  | c :: rest => (if pat <+: c :: rest then 1 else 0) + countPos pat rest

/-- `n` copies of the `</span>` text, as appended by the closing loop of
`processAnsiOutput`. -/
def closeRep : Nat → List Char
  | 0 => []
  | n + 1 => closeSpan ++ closeRep n

/-- `processAnsiOutput` from `app.js` (lines 604-649): newline
replacement, ANSI-escape replacement, then appending one `</span>` for
each unbalanced opening span (`openTags - closeTags` iterations, none
when the difference is not positive). -/
def processAnsiOutput (s : List Char) : List Char :=
  let processed := replaceAnsi (replaceNewlines s)
  let openTags := countPos openSpan processed
  let closeTags := countPos closeSpan processed
  processed ++ closeRep (openTags - closeTags)

theorem keysOf_append (a b : Cache) : keysOf (a ++ b) = keysOf a ++ keysOf b := by
  simp [keysOf]

theorem length_keysOf (c : Cache) : (keysOf c).length = c.length := by
  simp [keysOf]

theorem keysOf_drop (c : Cache) (n : Nat) : keysOf (c.drop n) = (keysOf c).drop n := by
  simp [keysOf, List.map_drop]

theorem mapSet_of_not_mem (c : Cache) (k v : String) (h : k ∉ keysOf c) :
    mapSet c k v = c ++ [(k, v)] := by
  induction c with
  | nil => rfl
  | cons e rest ih =>
    obtain ⟨k', v'⟩ := e
    simp only [keysOf, List.map_cons, List.mem_cons] at h
    push_neg at h
    rw [mapSet, if_neg (fun he => h.1 he.symm), ih h.2]
    rfl

theorem mapSet_length_le (c : Cache) (k v : String) :
    (mapSet c k v).length ≤ c.length + 1 := by
  induction c with
  | nil => simp [mapSet]
  | cons e rest ih =>
    obtain ⟨k', v'⟩ := e
    by_cases he : k' = k
    · simp [mapSet, he]
    · simp only [mapSet, if_neg he, List.length_cons]
      omega

/-- The eviction pass bounds the cache at 10 entries, whatever the cache
held before. -/
theorem cacheInsert_length_le (c : Cache) (k v : String) :
    (cacheInsert c k v).length ≤ 10 := by
  unfold cacheInsert
  by_cases h : 10 < (mapSet c k v).length
  · simp only [h, if_true, List.length_drop]
    omega
  · simp only [h, if_false]
    omega

/-- Inserting a list of keys one by one into an initially empty cache
through the handler's insertion-and-eviction step (the 11-distinct-keys
scenario of the specification's cache-correctness property). -/
def insertFold (f : String → String) (ks : List String) : Cache :=
  ks.foldl (fun c k => cacheInsert c k (f k)) []

theorem insertFold_append_singleton (f : String → String) (ks : List String)
    (k : String) :
    insertFold f (ks ++ [k]) = cacheInsert (insertFold f ks) k (f k) := by
  simp [insertFold, List.foldl_append]

/-- Up to 10 pairwise-distinct keys are all retained, in insertion
order. -/
theorem insertFold_keys_le10 (f : String → String) :
    ∀ ks : List String, ks.Nodup → ks.length ≤ 10 →
      keysOf (insertFold f ks) = ks := by
  intro ks
  induction ks using List.reverseRecOn with
  | nil => intro _ _; rfl
  | append_singleton l a ih =>
    intro hnd hlen
    rw [List.nodup_append] at hnd
    have hl : l.Nodup := hnd.1
    have ha : a ∉ l := by
      intro hmem
      exact hnd.2.2 hmem (by simp)
    have hlen' : l.length ≤ 9 := by
      simp only [List.length_append, List.length_singleton] at hlen
      omega
    have hkeys := ih hl (by omega)
    rw [insertFold_append_singleton]
    unfold cacheInsert
    rw [mapSet_of_not_mem _ _ _ (by rw [hkeys]; exact ha)]
    have hclen : (insertFold f l).length = l.length := by
      rw [← length_keysOf, hkeys]
    have hlen2 : (insertFold f l ++ [(a, f a)]).length = l.length + 1 := by
      simp [hclen]
    rw [if_neg (by rw [hlen2]; omega)]
    rw [keysOf_append, hkeys]
    rfl

/-- With 11 pairwise-distinct keys, the final eviction drops exactly the
first-inserted key. -/
theorem insertFold_keys_11 (f : String → String) (ks : List String)
    (hnd : ks.Nodup) (hlen : ks.length = 11) :
    keysOf (insertFold f ks) = ks.drop 1 := by
  induction ks using List.reverseRecOn with
  | nil => simp at hlen
  | append_singleton l a _ =>
    rw [List.nodup_append] at hnd
    have hl : l.Nodup := hnd.1
    have ha : a ∉ l := by
      intro hmem
      exact hnd.2.2 hmem (by simp)
    have hlen' : l.length = 10 := by
      simp only [List.length_append, List.length_singleton] at hlen
      omega
    have hkeys := insertFold_keys_le10 f l hl (by omega)
    rw [insertFold_append_singleton]
    unfold cacheInsert
    rw [mapSet_of_not_mem _ _ _ (by rw [hkeys]; exact ha)]
    have hclen : (insertFold f l).length = l.length := by
      rw [← length_keysOf, hkeys]
    have hlen2 : (insertFold f l ++ [(a, f a)]).length = l.length + 1 := by
      simp [hclen]
    rw [if_pos (by rw [hlen2]; omega)]
    rw [keysOf_drop, keysOf_append, hkeys, hlen2]
    have hsing : keysOf [(a, f a)] = [a] := rfl
    rw [hsing]
    congr 1
    omega

/-- Every branch of the `process-image` handler leaves the cache
untouched, except the single success branch, which replaces it by
`cacheInsert` at the computed key. -/
theorem processImage_cache_cases (env : Env) (st : EngineState) (p : String)
    (s : Settings) (out : String) :
    (processImage env st p s out).state.cache = st.cache ∨
    ∃ v, (processImage env st p s out).state.cache =
      cacheInsert st.cache (getCacheKey p s) v := by
  simp only [processImage]
  split
  · left; rfl
  · split
    · left; rfl
    · split
      · left; rfl
      · split
        · left; rfl
        · split
          · left; rfl
          · split
            · left; rfl
            · right; exact ⟨_, rfl⟩

/-- A rejected `process-image` call leaves the cache untouched. -/
theorem processImage_error_cache (env : Env) (st : EngineState) (p : String)
    (s : Settings) (out : String) (e : String)
    (h : (processImage env st p s out).result = Except.error e) :
    (processImage env st p s out).state.cache = st.cache := by
  revert h
  simp only [processImage]
  split
  · intro h; cases h
  · split
    · intro _; rfl
    · split
      · intro _; rfl
      · split
        · intro _; rfl
        · split
          · intro _; rfl
          · split
            · intro _; rfl
            · intro h; cases h

/-- A concrete environment in which everything works: bridge and files
exist, the subprocess exits cleanly and the output file reads back
`"ART"`. -/
def testEnv : Env where
  bridgeExists := true
  fileExists := fun _ => true
  optimizeMemory := true
  run := fun _ => SpawnOutcome.exited 0 "" (Except.ok "ART")

/-- C1: when the cache key of an image path and settings object is
already present in the result cache, the `process-image` handler
resolves with the previously stored string byte-for-byte, spawns no
subprocess, and leaves the whole state (in particular every cache
entry) unchanged; hence a second call with the identical (image, config)
pair that hits the cache returns the identical output. -/
theorem claim1_cache_hit_returns_cached (env : Env) (st : EngineState)
    (imagePath : String) (s : Settings) (v : String) (outputFile : String)
    (h : cacheLookup st.cache (getCacheKey imagePath s) = some v) :
    processImage env st imagePath s outputFile =
      ⟨Except.ok v, st, false⟩ := by
  simp only [processImage, h]

theorem claim1_cache_hit_returns_cached_witness :
    cacheLookup [(getCacheKey "img.png" defaultSettings, "ART")]
        (getCacheKey "img.png" defaultSettings) = some "ART" ∧
    processImage testEnv ⟨[(getCacheKey "img.png" defaultSettings, "ART")], none⟩
        "img.png" defaultSettings "out.txt" =
      ⟨Except.ok "ART",
       ⟨[(getCacheKey "img.png" defaultSettings, "ART")], none⟩, false⟩ :=
  ⟨by decide,
   claim1_cache_hit_returns_cached testEnv
     ⟨[(getCacheKey "img.png" defaultSettings, "ART")], none⟩
     "img.png" defaultSettings "ART" "out.txt" (by decide)⟩

/-- C2: the result cache never exceeds 10 entries after a conversion
completes, and eviction is oldest-first: inserting 11 distinct keys
through the handler's insertion step leaves the first-inserted key
absent and the other 10 present. -/
theorem claim2_cache_capacity_eviction :
    (∀ (env : Env) (st : EngineState) (p : String) (s : Settings)
        (out : String), st.cache.length ≤ 10 →
        (processImage env st p s out).state.cache.length ≤ 10) ∧
    (∀ (f : String → String) (ks : List String), ks.Nodup → ks.length = 11 →
        (∀ k0, ks.head? = some k0 → k0 ∉ keysOf (insertFold f ks)) ∧
        (∀ k ∈ ks.drop 1, k ∈ keysOf (insertFold f ks))) := by
  constructor
  · intro env st p s out hlen
    rcases processImage_cache_cases env st p s out with h | ⟨v, h⟩
    · rw [h]; exact hlen
    · rw [h]; exact cacheInsert_length_le _ _ _
  · intro f ks hnd hlen
    have hk := insertFold_keys_11 f ks hnd hlen
    constructor
    · intro k0 hk0
      rw [hk]
      cases ks with
      | nil => cases hk0
      | cons a t =>
        simp only [List.head?_cons, Option.some.injEq] at hk0
        subst hk0
        simp only [List.drop_one, List.tail_cons]
        exact (List.nodup_cons.mp hnd).1
    · intro k hkmem
      rw [hk]
      exact hkmem

theorem claim2_cache_capacity_eviction_witness :
    (([] : Cache).length ≤ 10 ∧
      (processImage testEnv ⟨[], none⟩ "img.png" defaultSettings
        "out.txt").state.cache.length ≤ 10) ∧
    (["k00", "k01", "k02", "k03", "k04", "k05", "k06", "k07", "k08", "k09",
        "k10"].Nodup ∧
      "k00" ∉ keysOf (insertFold (fun k => k ++ "!")
        ["k00", "k01", "k02", "k03", "k04", "k05", "k06", "k07", "k08", "k09",
         "k10"]) ∧
      "k01" ∈ keysOf (insertFold (fun k => k ++ "!")
        ["k00", "k01", "k02", "k03", "k04", "k05", "k06", "k07", "k08", "k09",
         "k10"])) :=
  ⟨⟨by decide,
    claim2_cache_capacity_eviction.1 testEnv ⟨[], none⟩ "img.png"
      defaultSettings "out.txt" (by decide)⟩,
   ⟨by decide,
    (claim2_cache_capacity_eviction.2 (fun k => k ++ "!")
      ["k00", "k01", "k02", "k03", "k04", "k05", "k06", "k07", "k08", "k09",
       "k10"] (by decide) (by decide)).1 "k00" rfl,
    (claim2_cache_capacity_eviction.2 (fun k => k ++ "!")
      ["k00", "k01", "k02", "k03", "k04", "k05", "k06", "k07", "k08", "k09",
       "k10"] (by decide) (by decide)).2 "k01" (by decide)⟩⟩

/-- C9: `applyPreset` changes only processing parameters: for every
preset object and every starting settings state the resulting settings
keep the previous `fontFamily`, `fontSize`, `autoFit`, `bgColor` and
`textColor` display settings. -/
theorem claim9_applyPreset_preserves_display (s : Settings) (p : PresetPatch) :
    (applyPreset s p).fontFamily = s.fontFamily ∧
    (applyPreset s p).fontSize = s.fontSize ∧
    (applyPreset s p).autoFit = s.autoFit ∧
    (applyPreset s p).bgColor = s.bgColor ∧
    (applyPreset s p).textColor = s.textColor :=
  ⟨rfl, rfl, rfl, rfl, rfl⟩

/-- C3 counterexample: the cache key is *not* a content identity.  Two
image files with byte-identical contents at different paths (here both
holding the bytes `[1, 2, 3]` under a concrete path-to-contents map) and
an equal configuration nevertheless get different cache keys, because
`getCacheKey` hashes the path, not the bytes. -/
theorem claim3_key_not_content_based_counterexample :
    (fun path => if path = "a.png" ∨ path = "b.png" then
        some [1, 2, 3] else none : String → Option (List Nat)) "a.png" =
      (fun path => if path = "a.png" ∨ path = "b.png" then
        some [1, 2, 3] else none : String → Option (List Nat)) "b.png" ∧
    getCacheKey "a.png" defaultSettings ≠ getCacheKey "b.png" defaultSettings :=
  ⟨by decide, by decide⟩

/-- C3 amended: the cache key combines the image *path* with the
serialized configuration; it is stable across repeated calls with the
same path and equal configuration (but not across different paths with
identical file bytes). -/
theorem claim3_key_path_and_config (p : String) (s1 s2 : Settings)
    (h : s1 = s2) : getCacheKey p s1 = getCacheKey p s2 := by
  rw [h]

theorem claim3_key_path_and_config_witness :
    defaultSettings = defaultSettings ∧
    getCacheKey "img.png" defaultSettings = getCacheKey "img.png" defaultSettings :=
  ⟨rfl, claim3_key_path_and_config "img.png" defaultSettings defaultSettings rfl⟩

/-- C4: the `process-image` handler does *not* forward the custom
character set: the bridge argument list is independent of
`settings.customChars` (the renderer's `custom-chars-input` value is
collected into the settings object and sent over IPC, but `main.js`
builds the subprocess arguments without any `--custom-chars` flag, which
the bridge CLI documents).  At the failing input — settings with the
non-empty custom set `"@#"` — the arguments equal those for an empty
custom set and never mention the custom characters. -/
theorem claim4_customChars_never_forwarded :
    (∀ (p : String) (s : Settings) (out : String) (m : Bool) (c : String),
      buildArgs p { s with customChars := c } out m = buildArgs p s out m) ∧
    "@#" ∉ buildArgs "img.png" { defaultSettings with customChars := "@#" }
      "out.txt" true :=
  ⟨fun _ _ _ _ _ => rfl, by decide⟩

/-- First value following the given flag in an argument list (how an
option flag's value is read off the command line). -/
def argAfter : List String → String → Option String
  | [], _ => none
  | _ :: [], _ => none
  | a :: b :: rest, flag =>
      if a = flag then some b else argAfter (b :: rest) flag

/-- Modelled from the spec: the conversion engine behind the bridge
script (`python_bridge.py` and the `image2textart_generator` package are
not part of the sources under `src/`).  Per the specification's
error-handling design, config validation rejects a zero output width
with an `InvalidConfigError` before any processing: the process exits
non-zero with the error description on stderr and writes no output
file.  On a valid config it writes the rendered text, abstracted here by
`render`. -/
def specEngine (render : List String → String) (args : List String) :
    SpawnOutcome :=
  if argAfter args "--width" = some "0" then
    SpawnOutcome.exited 1
      "InvalidConfigError: output width must be a positive integer"
      (Except.error "ENOENT")
  else
    SpawnOutcome.exited 0 "" (Except.ok (render args))

/-- The `--width` value of the built argument list is the serialized
`outputWidth` (provided neither the image path nor the output path is
itself the literal flag text). -/
theorem argAfter_buildArgs_width (p : String) (s : Settings) (out : String)
    (m : Bool) (hp : p ≠ "--width") (hout : out ≠ "--width") :
    argAfter (buildArgs p s out m) "--width" = some (toString s.outputWidth) := by
  simp only [buildArgs, bridgeScript, List.cons_append, List.nil_append]
  have h1 : ∀ (l : List String),
      argAfter ("python_bridge.py" :: "generate" :: p :: "--output" :: out ::
        "--width" :: toString s.outputWidth :: l) "--width" =
        some (toString s.outputWidth) := by
    intro l
    rw [argAfter, if_neg (by decide)]
    rw [argAfter, if_neg (by decide)]
    rw [argAfter, if_neg hp]
    rw [argAfter, if_neg (by decide)]
    rw [argAfter, if_neg hout]
    rw [argAfter, if_pos rfl]
  split <;> split <;> split <;> split <;> split <;>
    (try simp only [List.cons_append, List.nil_append]) <;> exact h1 _

/-- C5: a conversion requested with `outputWidth = 0` (on a cache miss,
with bridge and image present) is rejected by the engine's config
validation and the handler rejects with the descriptive
`InvalidConfigError` text; it never resolves with any output string, in
particular not with an empty one. -/
theorem claim5_zero_width_rejected (st : EngineState) (p out : String)
    (s : Settings) (render : List String → String) (m : Bool)
    (hw : s.outputWidth = 0)
    (hmiss : cacheLookup st.cache (getCacheKey p s) = none)
    (hp : p ≠ "--width") (hout : out ≠ "--width") :
    (processImage ⟨true, fun _ => true, m, specEngine render⟩ st p s out).result =
      Except.error
        "Python error: InvalidConfigError: output width must be a positive integer" ∧
    ∀ o, (processImage ⟨true, fun _ => true, m, specEngine render⟩
      st p s out).result ≠ Except.ok o := by
  have hargs := argAfter_buildArgs_width p s out m hp hout
  rw [hw] at hargs
  have heng : specEngine render (buildArgs p s out m) =
      SpawnOutcome.exited 1
        "InvalidConfigError: output width must be a positive integer"
        (Except.error "ENOENT") := by
    unfold specEngine
    rw [if_pos (by rw [hargs]; decide)]
  have hres : (processImage ⟨true, fun _ => true, m, specEngine render⟩
      st p s out).result =
      Except.error
        "Python error: InvalidConfigError: output width must be a positive integer" := by
    simp [processImage, hmiss, heng]
  exact ⟨hres, fun o h => by rw [hres] at h; cases h⟩

theorem claim5_zero_width_rejected_witness :
    ({ defaultSettings with outputWidth := 0 } : Settings).outputWidth = 0 ∧
    cacheLookup ([] : Cache)
      (getCacheKey "img.png" { defaultSettings with outputWidth := 0 }) = none ∧
    ("img.png" : String) ≠ "--width" ∧ ("out.txt" : String) ≠ "--width" ∧
    (processImage ⟨true, fun _ => true, true, specEngine (fun _ => "X")⟩
        ⟨[], none⟩ "img.png" { defaultSettings with outputWidth := 0 }
        "out.txt").result =
      Except.error
        "Python error: InvalidConfigError: output width must be a positive integer" :=
  ⟨rfl, rfl, by decide, by decide,
   (claim5_zero_width_rejected ⟨[], none⟩ "img.png" "out.txt"
     { defaultSettings with outputWidth := 0 } (fun _ => "X") true rfl rfl
     (by decide) (by decide)).1⟩

/-- C6: conversion failure is atomic.  Whenever the `process-image`
handler rejects, the result cache is unchanged; and each failure mode —
bridge script absent, source image absent, spawn failure, non-zero exit
code, unreadable output file — makes the handler reject with an error
(so no output string is returned and no cache entry is added). -/
theorem claim6_failure_atomic (env : Env) (st : EngineState) (p : String)
    (s : Settings) (out : String) :
    (∀ e, (processImage env st p s out).result = Except.error e →
        (processImage env st p s out).state.cache = st.cache) ∧
    (cacheLookup st.cache (getCacheKey p s) = none →
      ((env.bridgeExists = false →
          ∃ e, (processImage env st p s out).result = Except.error e) ∧
       (env.bridgeExists = true → env.fileExists p = false →
          ∃ e, (processImage env st p s out).result = Except.error e) ∧
       (∀ msg, env.bridgeExists = true → env.fileExists p = true →
          env.run (buildArgs p s out env.optimizeMemory) =
            SpawnOutcome.spawnError msg →
          ∃ e, (processImage env st p s out).result = Except.error e) ∧
       (∀ code stderr ro, env.bridgeExists = true → env.fileExists p = true →
          env.run (buildArgs p s out env.optimizeMemory) =
            SpawnOutcome.exited code stderr ro → code ≠ 0 →
          ∃ e, (processImage env st p s out).result = Except.error e) ∧
       (∀ stderr msg, env.bridgeExists = true → env.fileExists p = true →
          env.run (buildArgs p s out env.optimizeMemory) =
            SpawnOutcome.exited 0 stderr (Except.error msg) →
          ∃ e, (processImage env st p s out).result = Except.error e))) := by
  refine ⟨fun e h => processImage_error_cache env st p s out e h,
    fun hmiss => ⟨?_, ?_, ?_, ?_, ?_⟩⟩
  · intro hb
    simp [processImage, hmiss, hb]
  · intro hb hf
    simp [processImage, hmiss, hb, hf]
  · intro msg hb hf hrun
    simp [processImage, hmiss, hb, hf, hrun]
  · intro code stderr ro hb hf hrun hcode
    simp [processImage, hmiss, hb, hf, hrun, hcode]
  · intro stderr msg hb hf hrun
    simp [processImage, hmiss, hb, hf, hrun]

theorem claim6_failure_atomic_witness :
    cacheLookup [("x", "y")] (getCacheKey "img.png" defaultSettings) = none ∧
    (processImage ⟨true, fun _ => false, true,
        fun _ => SpawnOutcome.exited 0 "" (Except.ok "ART")⟩
      ⟨[("x", "y")], none⟩ "img.png" defaultSettings "out.txt").state.cache =
      [("x", "y")] ∧
    (∃ e, (processImage ⟨true, fun _ => false, true,
        fun _ => SpawnOutcome.exited 0 "" (Except.ok "ART")⟩
      ⟨[("x", "y")], none⟩ "img.png" defaultSettings "out.txt").result =
        Except.error e) :=
  ⟨by decide,
   (claim6_failure_atomic ⟨true, fun _ => false, true,
       fun _ => SpawnOutcome.exited 0 "" (Except.ok "ART")⟩
     ⟨[("x", "y")], none⟩ "img.png" defaultSettings "out.txt").1
     "Image file not found: img.png" rfl,
   ((claim6_failure_atomic ⟨true, fun _ => false, true,
       fun _ => SpawnOutcome.exited 0 "" (Except.ok "ART")⟩
     ⟨[("x", "y")], none⟩ "img.png" defaultSettings "out.txt").2
     (by decide)).2.1 rfl rfl⟩

/-- C7 counterexample: with the bridge script missing — one of the
claimed failure modes — the `get-character-presets` handler resolves
successfully with the empty preset list instead of surfacing an error to
the caller. -/
theorem claim7_bridge_missing_returns_empty_counterexample :
    getCharacterPresets false (PresetsRun.exited 0 "") (fun _ => none) =
      Except.ok ([] : List String) := rfl

/-- C7 amended: on every failure mode of the list-presets command —
bridge script missing, spawn failure, non-zero exit, or unparseable
output — the handler resolves successfully with the empty preset list
(it never rejects and surfaces no error). -/
theorem claim7_failure_modes_resolve_empty (bridgeExists : Bool)
    (run : PresetsRun) (jsonParse : String → Option (List String))
    (h : bridgeExists = false ∨
      (∃ msg, run = PresetsRun.spawnError msg) ∨
      (∃ code stdout, run = PresetsRun.exited code stdout ∧ code ≠ 0) ∨
      (∃ stdout, run = PresetsRun.exited 0 stdout ∧
        jsonParse stdout.trim = none)) :
    getCharacterPresets bridgeExists run jsonParse = Except.ok [] := by
  rcases h with hb | ⟨msg, hr⟩ | ⟨code, stdout, hr, hc⟩ | ⟨stdout, hr, hjp⟩
  · simp [getCharacterPresets, hb]
  · by_cases hb : bridgeExists = false
    · simp [getCharacterPresets, hb]
    · simp [getCharacterPresets, hb, hr]
  · by_cases hb : bridgeExists = false
    · simp [getCharacterPresets, hb]
    · simp [getCharacterPresets, hb, hr, hc]
  · by_cases hb : bridgeExists = false
    · simp [getCharacterPresets, hb]
    · simp [getCharacterPresets, hb, hr, hjp]

theorem claim7_failure_modes_resolve_empty_witness :
    ((true : Bool) = false ∨
      (∃ msg, PresetsRun.spawnError "ENOENT" = PresetsRun.spawnError msg) ∨
      (∃ code stdout, PresetsRun.spawnError "ENOENT" =
        PresetsRun.exited code stdout ∧ code ≠ 0) ∨
      (∃ stdout, PresetsRun.spawnError "ENOENT" = PresetsRun.exited 0 stdout ∧
        (fun _ : String => (none : Option (List String))) stdout.trim = none)) ∧
    getCharacterPresets true (PresetsRun.spawnError "ENOENT")
      (fun _ => none) = Except.ok [] :=
  ⟨Or.inr (Or.inl ⟨"ENOENT", rfl⟩),
   claim7_failure_modes_resolve_empty true (PresetsRun.spawnError "ENOENT")
     (fun _ => none) (Or.inr (Or.inl ⟨"ENOENT", rfl⟩))⟩

/-- C8: the suggest-settings command has no side effects on the engine
state: whatever the environment does (file missing, spawn failure, any
exit code, parse success or failure), the handler leaves the result
cache and the stored last-used configuration unchanged, and resolves
with either a settings recommendation or a structured failure. -/
theorem claim8_suggest_no_side_effects (st : EngineState) (fileExists : Bool)
    (run : SuggestRun) (jsonParse : String → Option PresetPatch)
    (regexFallback : String → Option PresetPatch) :
    (suggestOptimalSettings st fileExists run jsonParse regexFallback).2.cache =
      st.cache ∧
    (suggestOptimalSettings st fileExists run jsonParse
      regexFallback).2.lastSettings = st.lastSettings ∧
    ((∃ ps, (suggestOptimalSettings st fileExists run jsonParse
        regexFallback).1 = SuggestResult.success ps) ∨
     (∃ e, (suggestOptimalSettings st fileExists run jsonParse
        regexFallback).1 = SuggestResult.failure e)) := by
  refine ⟨rfl, rfl, ?_⟩
  cases h : (suggestOptimalSettings st fileExists run jsonParse regexFallback).1 with
  | success ps => exact Or.inl ⟨ps, rfl⟩
  | failure e => exact Or.inr ⟨e, rfl⟩

/-- In `x ++ </span>`, an occurrence of `<span` as a prefix can only lie
inside `x`: no occurrence can straddle the boundary or start inside the
appended closer. -/
theorem openSpan_prefix_append_closeSpan (x : List Char) :
    openSpan <+: x ++ closeSpan ↔ openSpan <+: x := by
  constructor
  · intro h
    rcases le_or_lt openSpan.length x.length with hx | hx
    · rw [List.prefix_iff_eq_take] at h ⊢
      rw [List.take_append_eq_append_take,
        Nat.sub_eq_zero_of_le hx, List.take_zero, List.append_nil] at h
      exact h
    · exfalso
      rw [List.prefix_iff_eq_take, List.take_append_eq_append_take,
        List.take_of_length_le (Nat.le_of_lt hx)] at h
      have hdrop : openSpan.drop x.length = closeSpan.take (5 - x.length) := by
        conv_lhs => rw [h]
        rw [List.drop_left]
        rfl
      have hne : ∀ n, n < 5 →
          openSpan.drop n ≠ closeSpan.take (5 - n) := by decide
      exact hne x.length hx hdrop
  · intro h
    exact h.trans (List.prefix_append x closeSpan)

theorem countPos_cons (pat : List Char) (c : Char) (rest : List Char) :
    countPos pat (c :: rest) =
      (if pat <+: c :: rest then 1 else 0) + countPos pat rest := rfl

/-- Appending one `</span>` creates no new `<span` occurrence. -/
theorem countPos_open_append_close (l : List Char) :
    countPos openSpan (l ++ closeSpan) = countPos openSpan l := by
  induction l with
  | nil => decide
  | cons c rest ih =>
    rw [List.cons_append, countPos_cons, countPos_cons, ih]
    congr 1
    have hiff := openSpan_prefix_append_closeSpan (c :: rest)
    rw [List.cons_append] at hiff
    exact if_congr hiff rfl rfl

/-- Appending one `</span>` adds at least one `</span>` occurrence and
loses none. -/
theorem countPos_close_append_close (l : List Char) :
    countPos closeSpan l + 1 ≤ countPos closeSpan (l ++ closeSpan) := by
  induction l with
  | nil => decide
  | cons c rest ih =>
    rw [List.cons_append, countPos_cons, countPos_cons]
    have hmono : (if closeSpan <+: c :: rest then 1 else 0) ≤
        (if closeSpan <+: c :: (rest ++ closeSpan) then 1 else 0) := by
      by_cases h : closeSpan <+: c :: rest
      · rw [if_pos h, if_pos (by
          have h2 := h.trans (List.prefix_append (c :: rest) closeSpan)
          rwa [List.cons_append] at h2)]
      · rw [if_neg h]
        exact Nat.zero_le _
    omega

theorem countPos_open_append_closeRep (l : List Char) (k : Nat) :
    countPos openSpan (l ++ closeRep k) = countPos openSpan l := by
  induction k generalizing l with
  | zero => simp [closeRep]
  | succ n ih =>
    rw [closeRep, ← List.append_assoc, ih (l ++ closeSpan)]
    exact countPos_open_append_close l

theorem countPos_close_append_closeRep (l : List Char) (k : Nat) :
    countPos closeSpan l + k ≤ countPos closeSpan (l ++ closeRep k) := by
  induction k generalizing l with
  | zero => simp [closeRep]
  | succ n ih =>
    rw [closeRep, ← List.append_assoc]
    have h1 := countPos_close_append_close l
    have h2 := ih (l ++ closeSpan)
    omega

/-- C10: for every input string, the HTML produced by
`processAnsiOutput` contains at least as many `</span>` occurrences as
`<span` occurrences — the trailing fix-up loop appends exactly the
missing closers, and appended closers can neither create nor destroy an
opening occurrence. -/
theorem claim10_spans_balanced (s : List Char) :
    countPos openSpan (processAnsiOutput s) ≤
      countPos closeSpan (processAnsiOutput s) := by
  simp only [processAnsiOutput]
  have h1 := countPos_open_append_closeRep (replaceAnsi (replaceNewlines s))
    (countPos openSpan (replaceAnsi (replaceNewlines s)) -
      countPos closeSpan (replaceAnsi (replaceNewlines s)))
  have h2 := countPos_close_append_closeRep (replaceAnsi (replaceNewlines s))
    (countPos openSpan (replaceAnsi (replaceNewlines s)) -
      countPos closeSpan (replaceAnsi (replaceNewlines s)))
  omega
